import Mathlib

/-!
# Verification of the gravity-simulation core (`src/main.py`)

A shallow embedding of the physics/merge engine of the simulator: the
`Body` record, `merge`, the force-accumulation/integration `update`, and
the per-frame `tick` that iterates a snapshot (`bodies[:]`) of the live
collection.  Python objects are modelled by a heap `ℕ → Body` indexed by
object identity, and the global list `bodies` by the list of live
identities; `list.remove`/`is`-comparison become operations on those
identities.  All floating-point numbers are modelled as real numbers.
-/

namespace Gravity

noncomputable section
open Classical

/-- `G = 6.67430e-1`, the tweaked gravitational constant of `src/main.py`. -/
def G : ℝ := 66743 / 100000

/-- `WIDTH` from the pygame setup (screen extent, used by the mouse-to-world
transform in `add_planet`). -/
def WIDTH : ℝ := 1200

/-- `HEIGHT` from the pygame setup. -/
def HEIGHT : ℝ := 800

/-- One simulated body: the mutable attributes set in `Body.__init__`
(`color` carries no physics and is dropped from the model; the spec calls it
an opaque display attribute). -/
structure Body where
  x : ℝ
  y : ℝ
  radius : ℝ
  mass : ℝ
  vx : ℝ
  vy : ℝ
  is_static : Bool
  trail : List (ℝ × ℝ)

/-- `Body.__init__(x, y, radius, color, mass, vx=0, vy=0, is_static=False)`:
no validation whatsoever is performed; every argument is stored verbatim and
`trail` starts empty. -/
def Body.init (x y radius mass vx vy : ℝ) ( is_static : Bool) : Body :=
  { x := x, y := y, radius := radius, mass := mass, vx := vx, vy := vy,
    is_static := is_static, trail := [] }

/-- The global state: `live` is the list `bodies` (object identities in list
order), `heap` gives each identity's current object state.  A Python object
outlives its removal from `bodies`, so the heap is total. -/
structure World where
  live : List ℕ
  heap : ℕ → Body

/-- Write one object's state (attribute mutation on the object named `a`). -/
def hupd (h : ℕ → Body) (a : ℕ) (b : Body) : ℕ → Body :=
  fun j => if j = a then b else h j

/-- `Body.merge(self, other)` (lines 95–111 of `src/main.py`), acting on the
heap entries of `a` (= `self`) and `b` (= `other`).  Faithful points:
* `if other.is_static: return` comes before everything else;
* in each branch the winner's `mass` is incremented FIRST, so the velocity
  expressions read the already-updated winner mass;
* `bodies.remove(x)` removes the first occurrence and is guarded by
  `if x in bodies`, which is exactly `List.erase`. -/
def merge (a b : ℕ) (w : World) : World :=
  let s := w.heap a
  let o := w.heap b
  if o.is_static then w
  else if s.mass < o.mass then
    -- other.mass += self.mass; other.v = (other.v*other.mass + self.v*self.mass)
    --                                     / (self.mass + other.mass)
    let m := o.mass + s.mass
    let o' : Body :=
      { o with
        mass := m
        vx := (o.vx * m + s.vx * s.mass) / (s.mass + m)
        vy := (o.vy * m + s.vy * s.mass) / (s.mass + m)
        radius := Real.sqrt (o.radius ^ 2 + s.radius ^ 2) }
    { live := w.live.erase a, heap := hupd w.heap b o' }
  else
    let m := s.mass + o.mass
    let s' : Body :=
      { s with
        mass := m
        vx := (s.vx * m + o.vx * o.mass) / (m + o.mass)
        vy := (s.vy * m + o.vy * o.mass) / (m + o.mass)
        radius := Real.sqrt (s.radius ^ 2 + o.radius ^ 2) }
    { live := w.live.erase b, heap := hupd w.heap a s' }

/-- One step of `for other in bodies:` inside `Body.update` would read
`bodies[i]`; `scanAux a fuel i fx fy w` runs that loop from index `i` with
accumulated force `(fx, fy)`.  Python's list iterator is index-based over the
LIVE list, which `merge` may shrink mid-loop, so the loop runs while
`i < len(bodies)` and `i` advances by one each step.  `fuel` only bounds the
recursion depth: each iteration consumes one unit while `len(bodies) - i`
also drops by at least one (the list never grows), so any
`fuel ≥ len(bodies) - i` — in particular the `len(bodies)` that `update`
passes — reproduces the loop exactly (`scanAux_fuel_irrel`).
`cos(atan2(dy, dx))` and `sin(atan2(dy, dx))` are `dx / distance` and
`dy / distance` (the branch has `distance ≠ 0`). -/
def scanAux (a : ℕ) : ℕ → ℕ → ℝ → ℝ → World → ℝ × ℝ × World
  | 0, _, fx, fy, w => (fx, fy, w)
  | fuel + 1, i, fx, fy, w =>
    if h : i < w.live.length then
      let b := w.live.get ⟨i, h⟩
      if b = a then scanAux a fuel (i + 1) fx fy w
      else
        let s := w.heap a
        let o := w.heap b
        let dx := o.x - s.x
        let dy := o.y - s.y
        let dist := Real.sqrt (dx ^ 2 + dy ^ 2)
        if dist = 0 then scanAux a fuel (i + 1) fx fy w
        else if dist < s.radius + o.radius then
          scanAux a fuel (i + 1) fx fy (merge a b w)
        else
          let force := G * s.mass * o.mass / dist ^ 2
          scanAux a fuel (i + 1) (fx + dx / dist * force) (fy + dy / dist * force) w
    else (fx, fy, w)

/-- `Body.update(self)` (lines 59–93): early return when static or paused;
otherwise the force scan, then `v += f / mass`, `p += v` (with the updated
velocity), then the trail append with the 150-entry cap (`pop(0)` drops the
oldest entry once).  The final attribute writes go to the heap whether or not
`a` is still live — Python mutates the object regardless. -/
def update (a : ℕ) (paused : Bool) (w : World) : World :=
  if (w.heap a).is_static || paused then w
  else
    let r := scanAux a w.live.length 0 0 0 w
    let fx := r.1
    let fy := r.2.1
    let w' := r.2.2
    let s := w'.heap a
    let vx := s.vx + fx / s.mass
    let vy := s.vy + fy / s.mass
    let x := s.x + vx
    let y := s.y + vy
    let t := s.trail ++ [(x, y)]
    let trail := if 150 < t.length then t.tail else t
    { w' with
      heap := hupd w'.heap a
        { s with vx := vx, vy := vy, x := x, y := y, trail := trail } }

/-- `for body in bodies[:]: body.update()` (lines 192–195): the loop runs
over a snapshot copy of the reference list taken at tick start, each entry's
`update` acting on the evolving world. -/
def tick (paused : Bool) (w : World) : World :=
  w.live.foldl (fun acc a => update a paused acc) w

/-- `n` consecutive ticks. -/
def tickN (paused : Bool) : ℕ → World → World
  | 0, w => w
  | n + 1, w => tickN paused n (tick paused w)

/-- Total mass of the live collection (`sum(b.mass for b in bodies)`). -/
def totalMass (w : World) : ℝ :=
  (w.live.map fun a => (w.heap a).mass).sum

/-- `add_planet(pos)` (lines 117–135): `angle` and `dist` are the values
`random.uniform(0, 2π)` and `random.randint(100, 400)` produced; when a
mouse position `(mx, my)` is given, the spawn point is overwritten by the
screen-to-world transform but `angle` keeps directing the velocity.
`sunMass` is `sun.mass` at call time. -/
def add_planet (angle dist : ℝ) (pos : Option (ℝ × ℝ))
    (zoom offset_x offset_y sunMass : ℝ) : Body :=
  let x₀ := Real.cos angle * dist
  let y₀ := Real.sin angle * dist
  let p : ℝ × ℝ :=
    match pos with
    | some (mx, my) => ((mx - WIDTH / 2) / zoom - offset_x,
                        (my - HEIGHT / 2) / zoom - offset_y)
    | none => (x₀, y₀)
  let distance := Real.sqrt (p.1 ^ 2 + p.2 ^ 2)
  let speed := Real.sqrt (G * sunMass / distance)
  Body.init p.1 p.2 6 5 (-Real.sin angle * speed) (Real.cos angle * speed) false

/-! ## Small-step characterisation of the force-accumulation loop

One lemma per arm of the loop body of `Body.update`: loop exit, the
`other is self` skip, the zero-distance skip, the collision arm and the
gravity arm.  They are the building blocks of every concrete trace below. -/

/-- Loop exit: once the index reaches the end of the live list the scan
returns the accumulators and world unchanged (whatever fuel remains). -/
theorem scanAux_stop (a fuel i : ℕ) (fx fy : ℝ) (w : World)
    (h : ¬ i < w.live.length) : scanAux a fuel i fx fy w = (fx, fy, w) := by
  cases fuel with
  | zero => rfl
  | succ m => simp only [scanAux, dif_neg h]

/-- The list entry the loop body reads, as a proof-free lookup. -/
theorem scanAux_get (w : World) (i : ℕ) (b : ℕ) (h : i < w.live.length)
    (he : w.live[i]? = some b) : w.live.get ⟨i, h⟩ = b := by
  rw [List.getElem?_eq_getElem h] at he
  exact Option.some.inj he

/-- `if other is self: continue`. -/
theorem scanAux_step_self (a m i : ℕ) (fx fy : ℝ) (w : World)
    (h : i < w.live.length) (he : w.live[i]? = some a) :
    scanAux a (m + 1) i fx fy w = scanAux a m (i + 1) fx fy w := by
  simp only [scanAux, dif_pos h, scanAux_get w i a h he, eq_self_iff_true, if_true]

/-- `if distance == 0: continue`: coincident centers contribute nothing and
trigger nothing. -/
theorem scanAux_step_coincident (a b m i : ℕ) (fx fy : ℝ) (w : World)
    (h : i < w.live.length) (he : w.live[i]? = some b) (hb : ¬ b = a)
    (hx : (w.heap b).x = (w.heap a).x) (hy : (w.heap b).y = (w.heap a).y) :
    scanAux a (m + 1) i fx fy w = scanAux a m (i + 1) fx fy w := by
  simp only [scanAux, dif_pos h, scanAux_get w i b h he, if_neg hb, hx, hy, sub_self]
  norm_num

/-- Collision arm: at positive distance below the radius sum, no force is
added for the pair, `merge` is invoked, and the loop moves to the next index
whether or not the merge removed `a` itself. -/
theorem scanAux_step_collide (a b m i : ℕ) (fx fy : ℝ) (w : World) (d : ℝ)
    (h : i < w.live.length) (he : w.live[i]? = some b) (hb : ¬ b = a)
    (hd : Real.sqrt (((w.heap b).x - (w.heap a).x) ^ 2 +
            ((w.heap b).y - (w.heap a).y) ^ 2) = d)
    (hd0 : ¬ d = 0) (hc : d < (w.heap a).radius + (w.heap b).radius) :
    scanAux a (m + 1) i fx fy w = scanAux a m (i + 1) fx fy (merge a b w) := by
  simp only [scanAux, dif_pos h, scanAux_get w i b h he, if_neg hb, hd,
    if_neg hd0, if_pos hc]

/-- Gravity arm: at positive distance at or above the radius sum the pair
contributes `G·m₁·m₂/d²` along the separation vector and the world is left
untouched. -/
theorem scanAux_step_force (a b m i : ℕ) (fx fy : ℝ) (w : World) (d : ℝ)
    (h : i < w.live.length) (he : w.live[i]? = some b) (hb : ¬ b = a)
    (hd : Real.sqrt (((w.heap b).x - (w.heap a).x) ^ 2 +
            ((w.heap b).y - (w.heap a).y) ^ 2) = d)
    (hd0 : ¬ d = 0) (hc : ¬ d < (w.heap a).radius + (w.heap b).radius) :
    scanAux a (m + 1) i fx fy w =
      scanAux a m (i + 1)
        (fx + ((w.heap b).x - (w.heap a).x) / d *
          (G * (w.heap a).mass * (w.heap b).mass / d ^ 2))
        (fy + ((w.heap b).y - (w.heap a).y) / d *
          (G * (w.heap a).mass * (w.heap b).mass / d ^ 2)) w := by
  simp only [scanAux, dif_pos h, scanAux_get w i b h he, if_neg hb, hd,
    if_neg hd0, if_neg hc]


/-- Removal never lengthens the live list, so the loop measure
`len(bodies) - i` shrinks every iteration. -/
theorem merge_live_length (a b : ℕ) (w : World) :
    (merge a b w).live.length ≤ w.live.length := by
  simp only [merge]
  split_ifs
  · exact le_rfl
  · exact (List.erase_sublist a w.live).length_le
  · exact (List.erase_sublist b w.live).length_le

/-- Fuel adequacy: any fuel at least `len(bodies) - i` produces the same
scan, so the `len(bodies)` that `update` passes replays the Python loop
exactly. -/
theorem scanAux_fuel_irrel (a : ℕ) :
    ∀ (fuel fuel' i : ℕ) (fx fy : ℝ) (w : World),
      w.live.length ≤ i + fuel → w.live.length ≤ i + fuel' →
      scanAux a fuel i fx fy w = scanAux a fuel' i fx fy w
  | 0, fuel', i, fx, fy, w, h1, _ => by
    have hstop : ¬ i < w.live.length := by omega
    rw [scanAux_stop a 0 i fx fy w hstop, scanAux_stop a fuel' i fx fy w hstop]
  | fuel + 1, 0, i, fx, fy, w, _, h2 => by
    have hstop : ¬ i < w.live.length := by omega
    rw [scanAux_stop a (fuel + 1) i fx fy w hstop, scanAux_stop a 0 i fx fy w hstop]
  | fuel + 1, fuel' + 1, i, fx, fy, w, h1, h2 => by
    by_cases h : i < w.live.length
    · simp only [scanAux, dif_pos h]
      by_cases hb : w.live.get ⟨i, h⟩ = a
      · simp only [hb, eq_self_iff_true, if_true]
        exact scanAux_fuel_irrel a fuel fuel' (i + 1) fx fy w (by omega) (by omega)
      · simp only [if_neg hb]
        split_ifs
        · exact scanAux_fuel_irrel a fuel fuel' (i + 1) fx fy w (by omega) (by omega)
        · have hlen := merge_live_length a (w.live.get ⟨i, h⟩) w
          exact scanAux_fuel_irrel a fuel fuel' (i + 1) fx fy
            (merge a (w.live.get ⟨i, h⟩) w) (by omega) (by omega)
        · exact scanAux_fuel_irrel a fuel fuel' (i + 1) _ _ w (by omega) (by omega)
    · rw [scanAux_stop a (fuel + 1) i fx fy w h, scanAux_stop a (fuel' + 1) i fx fy w h]

/-- Real.sqrt at a perfect square, the workhorse of the concrete traces. -/
theorem sqrt_eval {x y : ℝ} (hy : 0 ≤ y) (h : y ^ 2 = x) : Real.sqrt x = y := by
  rw [← h, Real.sqrt_sq hy]

/-! ## Static bodies through merges, updates and ticks

`is_static` is never written by any operation, a static body is never the
erased side of a `merge` reached from a non-static subject, and `update`
returns immediately on a static subject; chaining these through the scan,
the tick and iterated ticks gives claim C3. -/

/-- No operation inside `merge` writes the `is_static` field. -/
theorem merge_heap_is_static (a b j : ℕ) (w : World) :
    ((merge a b w).heap j).is_static = (w.heap j).is_static := by
  simp only [merge]
  split_ifs with h1 h2
  · rfl
  · simp only [hupd]
    split_ifs with h3
    · subst h3; rfl
    · rfl
  · simp only [hupd]
    split_ifs with h3
    · subst h3; rfl
    · rfl

/-- A merge whose subject `a` is non-static leaves every static body `j`
untouched in the heap and in the live list: `j` cannot be `a` (flags differ)
and cannot be the erased loser (the guard protects `b`, and the `else`
branch erases only `b`). -/
theorem merge_static_frozen (a b j : ℕ) (w : World)
    (ha : (w.heap a).is_static = false) (hj : (w.heap j).is_static = true) :
    (merge a b w).heap j = w.heap j ∧
      (j ∈ w.live → j ∈ (merge a b w).live) := by
  have hja : ¬ j = a := fun h => by rw [h, ha] at hj; exact Bool.false_ne_true hj
  simp only [merge]
  split_ifs with h1 h2
  · exact ⟨rfl, fun h => h⟩
  · have hjb : ¬ j = b := fun h => by
      rw [h] at hj; rw [hj] at h1; exact h1 rfl
    exact ⟨by simp only [hupd, if_neg hjb],
      fun h => (List.mem_erase_of_ne hja).mpr h⟩
  · have hjb : ¬ j = b := fun h => by
      rw [h] at hj; rw [hj] at h1; exact h1 rfl
    exact ⟨by simp only [hupd, if_neg hja],
      fun h => (List.mem_erase_of_ne hjb).mpr h⟩

/-- The whole force scan of a non-static subject leaves every static body
untouched and live. -/
theorem scanAux_static_frozen (a j : ℕ) :
    ∀ (fuel i : ℕ) (fx fy : ℝ) (w : World),
      (w.heap a).is_static = false → (w.heap j).is_static = true →
      (scanAux a fuel i fx fy w).2.2.heap j = w.heap j ∧
        (j ∈ w.live → j ∈ (scanAux a fuel i fx fy w).2.2.live)
  | 0, _, _, _, _, _, _ => ⟨rfl, id⟩
  | fuel + 1, i, fx, fy, w, ha, hj => by
    by_cases h : i < w.live.length
    · simp only [scanAux, dif_pos h]
      by_cases hb : w.live.get ⟨i, h⟩ = a
      · simp only [hb, eq_self_iff_true, if_true]
        exact scanAux_static_frozen a j fuel (i + 1) fx fy w ha hj
      · simp only [if_neg hb]
        by_cases h0 : Real.sqrt (((w.heap (w.live.get ⟨i, h⟩)).x - (w.heap a).x) ^ 2 +
            ((w.heap (w.live.get ⟨i, h⟩)).y - (w.heap a).y) ^ 2) = 0
        · simp only [if_pos h0]
          exact scanAux_static_frozen a j fuel (i + 1) fx fy w ha hj
        · simp only [if_neg h0]
          by_cases hc : Real.sqrt (((w.heap (w.live.get ⟨i, h⟩)).x - (w.heap a).x) ^ 2 +
              ((w.heap (w.live.get ⟨i, h⟩)).y - (w.heap a).y) ^ 2) <
              (w.heap a).radius + (w.heap (w.live.get ⟨i, h⟩)).radius
          · simp only [if_pos hc]
            have hm := merge_static_frozen a (w.live.get ⟨i, h⟩) j w ha hj
            have ha' : ((merge a (w.live.get ⟨i, h⟩) w).heap a).is_static = false := by
              rw [merge_heap_is_static]; exact ha
            have hj' : ((merge a (w.live.get ⟨i, h⟩) w).heap j).is_static = true := by
              rw [hm.1]; exact hj
            have ih := scanAux_static_frozen a j fuel (i + 1) fx fy
              (merge a (w.live.get ⟨i, h⟩) w) ha' hj'
            exact ⟨ih.1.trans hm.1, fun hmem => ih.2 (hm.2 hmem)⟩
          · simp only [if_neg hc]
            exact scanAux_static_frozen a j fuel (i + 1) _ _ w ha hj
    · simp only [scanAux, dif_neg h]
      exact ⟨trivial, id⟩

/-- One `Body.update` call leaves every static body untouched and live
(whoever the subject is, static, paused or not). -/
theorem update_static_frozen (a j : ℕ) (p : Bool) (w : World)
    (hj : (w.heap j).is_static = true) :
    (update a p w).heap j = w.heap j ∧
      (j ∈ w.live → j ∈ (update a p w).live) := by
  by_cases hs : ((w.heap a).is_static || p) = true
  · simp only [update, if_pos hs]
    exact ⟨trivial, id⟩
  · have ha : (w.heap a).is_static = false := by
      cases hstat : (w.heap a).is_static
      · rfl
      · rw [hstat] at hs; simp at hs
    have hja : ¬ j = a := fun h => by rw [h, ha] at hj; exact Bool.false_ne_true hj
    simp only [update, if_neg hs]
    have hscan := scanAux_static_frozen a j w.live.length 0 0 0 w ha hj
    exact ⟨by simp only [hupd, if_neg hja]; exact hscan.1, hscan.2⟩

/-- The per-tick fold over the snapshot preserves every static body. -/
theorem foldl_update_static_frozen (j : ℕ) (p : Bool) :
    ∀ (l : List ℕ) (w : World), (w.heap j).is_static = true →
      (l.foldl (fun acc a => update a p acc) w).heap j = w.heap j ∧
        (j ∈ w.live → j ∈ (l.foldl (fun acc a => update a p acc) w).live)
  | [], _, _ => ⟨rfl, id⟩
  | a :: l, w, hj => by
    simp only [List.foldl]
    have h1 := update_static_frozen a j p w hj
    have hj' : ((update a p w).heap j).is_static = true := by rw [h1.1]; exact hj
    have ih := foldl_update_static_frozen j p l (update a p w) hj'
    exact ⟨ih.1.trans h1.1, fun h => ih.2 (h1.2 h)⟩

/-- One tick preserves every static body. -/
theorem tick_static_frozen (j : ℕ) (p : Bool) (w : World)
    (hj : (w.heap j).is_static = true) :
    (tick p w).heap j = w.heap j ∧ (j ∈ w.live → j ∈ (tick p w).live) :=
  foldl_update_static_frozen j p w.live w hj

/-- Any number of ticks preserves every static body. -/
theorem tickN_static_frozen (j : ℕ) (p : Bool) :
    ∀ (n : ℕ) (w : World), (w.heap j).is_static = true →
      (tickN p n w).heap j = w.heap j ∧
        (j ∈ w.live → j ∈ (tickN p n w).live)
  | 0, _, _ => ⟨rfl, id⟩
  | n + 1, w, hj => by
    simp only [tickN]
    have h1 := tick_static_frozen j p w hj
    have hj' : ((tick p w).heap j).is_static = true := by rw [h1.1]; exact hj
    have ih := tickN_static_frozen j p n (tick p w) hj'
    exact ⟨ih.1.trans h1.1, fun h => ih.2 (h1.2 h)⟩

/-! ## Concrete worlds

Each scenario below instantiates the embedding at explicit bodies; the trace
lemmas push one `update` (or a whole `tick`) through the small-step lemmas
to a fully evaluated successor world.  `G = 66743/100000` appears unfolded
in the evaluated coordinates. -/

/-- Claim C1 test data: body 0 has `m=3, v=(2,0)`, body 1 has `m=1, v=(0,4)`
(positions and radii are irrelevant to `merge`). -/
noncomputable def wM : World :=
  { live := [0, 1]
  , heap := fun i =>
      if i = 0 then Body.init 0 0 1 3 2 0 false
      else Body.init 0 0 1 1 0 4 false }

/-- Claim C2 test data: two overlapping non-static bodies at rest, the
heavier one first in the collection: A = body 0 at `(0,0)`, `r=5, m=2`;
B = body 1 at `(3,0)`, `r=5, m=1`. -/
noncomputable def w0 : World :=
  { live := [0, 1]
  , heap := fun i =>
      if i = 0 then Body.init 0 0 5 2 0 0 false
      else Body.init 3 0 5 1 0 0 false }

/-- Claim C5 test data: the static sun (body 0, `m=10000, r=20`) overlapped
by a light planet (body 1, `m=5, r=6` at `(10,0)`). -/
noncomputable def wS : World :=
  { live := [0, 1]
  , heap := fun i =>
      if i = 0 then Body.init 0 0 20 10000 0 0 true
      else Body.init 10 0 6 5 0 0 false }

/-- Claim C7 test data: subject body 0 (`m=1, r=5` at the origin) overlaps
body 1 (`m=2, r=5` at `(3,0)`), with a far-away body 2 at `(1000,0)`;
body 0 sits last in the live list so the scan reaches body 2 after the
merge removes body 0. -/
noncomputable def wC : World :=
  { live := [1, 2, 0]
  , heap := fun i =>
      if i = 0 then Body.init 0 0 5 1 0 0 false
      else if i = 1 then Body.init 3 0 5 2 0 0 false
      else Body.init 1000 0 1 1 0 0 false }

/-- Claim C8 test data: two distinct bodies with exactly coincident
centers. -/
noncomputable def wZ : World :=
  { live := [0, 1]
  , heap := fun i =>
      if i = 0 then Body.init 7 7 5 2 0 0 false
      else Body.init 7 7 3 1 0 0 false }

/-- Claim C6 witness data: body 0 with radius 3 and mass 1, body 1 with
radius 4 and mass 2. -/
noncomputable def wR : World :=
  { live := [0, 1]
  , heap := fun i =>
      if i = 0 then Body.init 0 0 3 1 0 0 false
      else Body.init 1 0 4 2 0 0 false }

/-- Claim C4 test data, the B1..B5 scenario of the spec: B1 is the static
sun (body 0), B2 = body 1 (`x=100, r=3, m=1`), B3 = body 2
(`x=103, r=4, m=2`) — these two overlap — and B4 = body 3 (`x=1000`),
B5 = body 4 (`x=2000`), all at rest on the x-axis. -/
noncomputable def w5 : World :=
  { live := [0, 1, 2, 3, 4]
  , heap := fun i =>
      if i = 0 then Body.init 0 0 20 10000 0 0 true
      else if i = 1 then Body.init 100 0 3 1 0 0 false
      else if i = 2 then Body.init 103 0 4 2 0 0 false
      else if i = 3 then Body.init 1000 0 2 1 0 0 false
      else Body.init 2000 0 2 1 0 0 false }

theorem w5live : w5.live = [0, 1, 2, 3, 4] := rfl

theorem w5h0 : w5.heap 0 = ⟨0, 0, 20, 10000, 0, 0, true, []⟩ := by
  norm_num [w5, Body.init]

theorem w5h1 : w5.heap 1 = ⟨100, 0, 3, 1, 0, 0, false, []⟩ := by
  norm_num [w5, Body.init]

theorem w5h2 : w5.heap 2 = ⟨103, 0, 4, 2, 0, 0, false, []⟩ := by
  norm_num [w5, Body.init]

theorem w5h3 : w5.heap 3 = ⟨1000, 0, 2, 1, 0, 0, false, []⟩ := by
  norm_num [w5, Body.init]

theorem w5h4 : w5.heap 4 = ⟨2000, 0, 2, 1, 0, 0, false, []⟩ := by
  norm_num [w5, Body.init]

/-- B2 absorbed into B3 (pre-merge masses 1 < 2): B3 gets mass 3 and radius
`√(4² + 3²) = 5`, B2 is erased. -/
noncomputable def w5m : World :=
  { live := [0, 2, 3, 4], heap := hupd w5.heap 2 ⟨103, 0, 5, 3, 0, 0, false, []⟩ }

theorem hmerge12 : merge 1 2 w5 = w5m := by
  have h25 : Real.sqrt ((25 : ℝ)) = 5 := sqrt_eval (by norm_num) (by norm_num)
  norm_num [merge, w5h1, w5h2, w5m, h25, w5live]

theorem w5mlive : w5m.live = [0, 2, 3, 4] := rfl

theorem w5mh1 : w5m.heap 1 = ⟨100, 0, 3, 1, 0, 0, false, []⟩ := by
  norm_num [w5m, hupd, w5h1]

theorem w5mh4 : w5m.heap 4 = ⟨2000, 0, 2, 1, 0, 0, false, []⟩ := by
  norm_num [w5m, hupd, w5h4]

/-- The force scan of B2: gravity from the sun, the collision with B3
(removing B2 itself mid-scan), then — the list having shifted — gravity
from B5; B4 is never reached. -/
theorem hscan1 : scanAux 1 5 0 0 0 w5 = ((-240942163257 / 361000000000), 0, w5m) := by
  have hs100 : Real.sqrt ((10000 : ℝ)) = 100 := sqrt_eval (by norm_num) (by norm_num)
  have hs9 : Real.sqrt ((9 : ℝ)) = 3 := sqrt_eval (by norm_num) (by norm_num)
  have hs1900 : Real.sqrt ((3610000 : ℝ)) = 1900 := sqrt_eval (by norm_num) (by norm_num)
  rw [scanAux_step_force 1 0 4 0 0 0 w5 100 (by norm_num [w5live]) (by norm_num [w5live])
      (by norm_num) (by norm_num [w5h0, w5h1, hs100]) (by norm_num)
      (by norm_num [w5h0, w5h1])]
  rw [scanAux_step_self 1 3 1 _ _ w5 (by norm_num [w5live]) (by norm_num [w5live])]
  rw [scanAux_step_collide 1 2 2 2 _ _ w5 3 (by norm_num [w5live]) (by norm_num [w5live])
      (by norm_num) (by norm_num [w5h1, w5h2, hs9]) (by norm_num)
      (by norm_num [w5h1, w5h2])]
  rw [hmerge12]
  rw [scanAux_step_force 1 4 1 3 _ _ w5m 1900 (by norm_num [w5mlive]) (by norm_num [w5mlive])
      (by norm_num) (by norm_num [w5mh1, w5mh4, hs1900]) (by norm_num)
      (by norm_num [w5mh1, w5mh4])]
  rw [scanAux_stop 1 1 (3 + 1) _ _ w5m (by norm_num [w5mlive])]
  norm_num [w5h0, w5h1, w5mh1, w5mh4, G]

/-- B2 after its own update: removed from the live list, yet integrated and
appended to its trail. -/
noncomputable def w5a : World :=
  { live := [0, 2, 3, 4]
  , heap := hupd w5m.heap 1
      ⟨(35859057836743 / 361000000000), 0, 3, 1, (-240942163257 / 361000000000), 0, false,
       [((35859057836743 / 361000000000), 0)]⟩ }

theorem hupdate1 : update 1 false w5 = w5a := by
  norm_num [update, w5h1, w5live, hscan1, w5mh1, w5a, w5mlive]

theorem w5alive : w5a.live = [0, 2, 3, 4] := rfl

theorem w5ah0 : w5a.heap 0 = ⟨0, 0, 20, 10000, 0, 0, true, []⟩ := by
  norm_num [w5a, w5m, hupd, w5h0]

theorem w5ah2 : w5a.heap 2 = ⟨103, 0, 5, 3, 0, 0, false, []⟩ := by
  norm_num [w5a, w5m, hupd, w5h2]

theorem w5ah3 : w5a.heap 3 = ⟨1000, 0, 2, 1, 0, 0, false, []⟩ := by
  norm_num [w5a, w5m, hupd, w5h3]

theorem w5ah4 : w5a.heap 4 = ⟨2000, 0, 2, 1, 0, 0, false, []⟩ := by
  norm_num [w5a, w5m, hupd, w5h4]

/-- The force scan of B3 (now mass 3): gravity from the sun, B4 and B5; B2
is gone from the live list and is not seen again. -/
theorem hscan2 : scanAux 2 4 0 0 0 w5a = ((-966261276319856447417 / 511967917680642150000), 0, w5a) := by
  have hsA : Real.sqrt ((10609 : ℝ)) = 103 := sqrt_eval (by norm_num) (by norm_num)
  have hsB : Real.sqrt ((804609 : ℝ)) = 897 := sqrt_eval (by norm_num) (by norm_num)
  have hsC : Real.sqrt ((3598609 : ℝ)) = 1897 := sqrt_eval (by norm_num) (by norm_num)
  rw [scanAux_step_force 2 0 3 0 0 0 w5a 103 (by norm_num [w5alive]) (by norm_num [w5alive])
      (by norm_num) (by norm_num [w5ah0, w5ah2, hsA]) (by norm_num) (by norm_num [w5ah0, w5ah2])]
  rw [scanAux_step_self 2 2 1 _ _ w5a (by norm_num [w5alive]) (by norm_num [w5alive])]
  rw [scanAux_step_force 2 3 1 2 _ _ w5a 897 (by norm_num [w5alive]) (by norm_num [w5alive])
      (by norm_num) (by norm_num [w5ah3, w5ah2, hsB]) (by norm_num) (by norm_num [w5ah3, w5ah2])]
  rw [scanAux_step_force 2 4 0 3 _ _ w5a 1897 (by norm_num [w5alive]) (by norm_num [w5alive])
      (by norm_num) (by norm_num [w5ah4, w5ah2, hsC]) (by norm_num) (by norm_num [w5ah4, w5ah2])]
  rw [scanAux_stop 2 0 (3 + 1) _ _ w5a (by norm_num [w5alive])]
  norm_num [w5ah0, w5ah2, w5ah3, w5ah4, G]

/-- B3 after its update. -/
noncomputable def w5b : World :=
  { live := [0, 2, 3, 4]
  , heap := hupd w5a.heap 2
      ⟨(157231825286998567902583 / 1535903753041926450000), 0, 5, 3, (-966261276319856447417 / 1535903753041926450000), 0, false, [((157231825286998567902583 / 1535903753041926450000), 0)]⟩ }

theorem hupdate2 : update 2 false w5a = w5b := by
  norm_num [update, w5ah2, w5alive, hscan2, w5b]

theorem w5blive : w5b.live = [0, 2, 3, 4] := rfl

theorem w5bh0 : w5b.heap 0 = ⟨0, 0, 20, 10000, 0, 0, true, []⟩ := by
  norm_num [w5b, hupd, w5ah0]

theorem w5bh2 : w5b.heap 2 = ⟨(157231825286998567902583 / 1535903753041926450000), 0, 5, 3, (-966261276319856447417 / 1535903753041926450000), 0, false, [((157231825286998567902583 / 1535903753041926450000), 0)]⟩ := by
  norm_num [w5b, hupd]

theorem w5bh3 : w5b.heap 3 = ⟨1000, 0, 2, 1, 0, 0, false, []⟩ := by
  norm_num [w5b, hupd, w5ah3]

theorem w5bh4 : w5b.heap 4 = ⟨2000, 0, 2, 1, 0, 0, false, []⟩ := by
  norm_num [w5b, hupd, w5ah4]

/-- The force scan of B4: gravity from the sun, the moved B3 and B5. -/
theorem hscan3 : scanAux 3 4 0 0 0 w5b = ((-1268953897720373256378400012096712009779632618857123182473 / 190073628437948908548446550139320954297107807188900000000000), 0, w5b) := by
  have hsA : Real.sqrt ((1000000 : ℝ)) = 1000 := sqrt_eval (by norm_num) (by norm_num)
  have hsB : Real.sqrt ((1900736284379489085484465501393209542971078071889 / 2359000338608274992811691527209602500000000) : ℝ) = (1378671927754927882097417 / 1535903753041926450000) := sqrt_eval (by norm_num) (by norm_num)
  rw [scanAux_step_force 3 0 3 0 0 0 w5b 1000 (by norm_num [w5blive]) (by norm_num [w5blive])
      (by norm_num) (by norm_num [w5bh0, w5bh3, hsA]) (by norm_num) (by norm_num [w5bh0, w5bh3])]
  rw [scanAux_step_force 3 2 2 1 _ _ w5b (1378671927754927882097417 / 1535903753041926450000) (by norm_num [w5blive]) (by norm_num [w5blive])
      (by norm_num) (by norm_num [w5bh2, w5bh3, hsB]) (by norm_num) (by norm_num [w5bh2, w5bh3])]
  rw [scanAux_step_self 3 1 2 _ _ w5b (by norm_num [w5blive]) (by norm_num [w5blive])]
  rw [scanAux_step_force 3 4 0 3 _ _ w5b 1000 (by norm_num [w5blive]) (by norm_num [w5blive])
      (by norm_num) (by norm_num [w5bh4, w5bh3, hsA]) (by norm_num) (by norm_num [w5bh4, w5bh3])]
  rw [scanAux_stop 3 0 (3 + 1) _ _ w5b (by norm_num [w5blive])]
  norm_num [w5bh0, w5bh2, w5bh3, w5bh4, G]

/-- B4 after its update. -/
noncomputable def w5c : World :=
  { live := [0, 2, 3, 4]
  , heap := hupd w5b.heap 3
      ⟨(190072359484051188175190171739308857585098027556281142876817527 / 190073628437948908548446550139320954297107807188900000000000), 0, 2, 1, (-1268953897720373256378400012096712009779632618857123182473 / 190073628437948908548446550139320954297107807188900000000000), 0, false, [((190072359484051188175190171739308857585098027556281142876817527 / 190073628437948908548446550139320954297107807188900000000000), 0)]⟩ }

theorem hupdate3 : update 3 false w5b = w5c := by
  norm_num [update, w5bh3, w5blive, hscan3, w5c]

theorem w5clive : w5c.live = [0, 2, 3, 4] := rfl

theorem w5ch0 : w5c.heap 0 = ⟨0, 0, 20, 10000, 0, 0, true, []⟩ := by
  norm_num [w5c, hupd, w5bh0]

theorem w5ch2 : w5c.heap 2 = ⟨(157231825286998567902583 / 1535903753041926450000), 0, 5, 3, (-966261276319856447417 / 1535903753041926450000), 0, false, [((157231825286998567902583 / 1535903753041926450000), 0)]⟩ := by
  norm_num [w5c, hupd, w5bh2]

theorem w5ch3 : w5c.heap 3 = ⟨(190072359484051188175190171739308857585098027556281142876817527 / 190073628437948908548446550139320954297107807188900000000000), 0, 2, 1, (-1268953897720373256378400012096712009779632618857123182473 / 190073628437948908548446550139320954297107807188900000000000), 0, false, [((190072359484051188175190171739308857585098027556281142876817527 / 190073628437948908548446550139320954297107807188900000000000), 0)]⟩ := by
  norm_num [w5c, hupd]

theorem w5ch4 : w5c.heap 4 = ⟨2000, 0, 2, 1, 0, 0, false, []⟩ := by
  norm_num [w5c, hupd, w5bh4]

/-- The force scan of B5: gravity from the sun and the moved B3 and B4. -/
theorem hscan4 : scanAux 4 4 0 0 0 w5c = ((-20498602331595661116746638394781660501119915128332213893941650412629432725153985640453465372318350781832518577592815277529015417721360910389469439681584396418156586915720602972183 / 12276093694189849469629389916981968458784286973055972620978244102627235221144505529713037819005416024453886324001505443657009028807410768222656289686347065407030449056662483240000000), 0, w5c) := by
  have hsA : Real.sqrt ((4000000 : ℝ)) = 2000 := sqrt_eval (by norm_num) (by norm_num)
  have hsB : Real.sqrt ((8494751399092446914302526784619540540930378071889 / 2359000338608274992811691527209602500000000) : ℝ) = (2914575680796854332097417 / 1535903753041926450000) := sqrt_eval (by norm_num) (by norm_num)
  have hsC : Real.sqrt ((36128466618521024417723591010726934219769074043709844460946262589805948219301417806767994321408136191520253857960643654395729 / 36127984227567460044686145596904878239906279590632645565029841410291608955084261513796578520283210000000000000000000000) : ℝ) = (190074897391846628921702928539333051009117586821518857123182473 / 190073628437948908548446550139320954297107807188900000000000) := sqrt_eval (by norm_num) (by norm_num)
  rw [scanAux_step_force 4 0 3 0 0 0 w5c 2000 (by norm_num [w5clive]) (by norm_num [w5clive])
      (by norm_num) (by norm_num [w5ch0, w5ch4, hsA]) (by norm_num) (by norm_num [w5ch0, w5ch4])]
  rw [scanAux_step_force 4 2 2 1 _ _ w5c (2914575680796854332097417 / 1535903753041926450000) (by norm_num [w5clive]) (by norm_num [w5clive])
      (by norm_num) (by norm_num [w5ch2, w5ch4, hsB]) (by norm_num) (by norm_num [w5ch2, w5ch4])]
  rw [scanAux_step_force 4 3 1 2 _ _ w5c (190074897391846628921702928539333051009117586821518857123182473 / 190073628437948908548446550139320954297107807188900000000000) (by norm_num [w5clive]) (by norm_num [w5clive])
      (by norm_num) (by norm_num [w5ch3, w5ch4, hsC]) (by norm_num) (by norm_num [w5ch3, w5ch4])]
  rw [scanAux_step_self 4 0 3 _ _ w5c (by norm_num [w5clive]) (by norm_num [w5clive])]
  rw [scanAux_stop 4 0 (3 + 1) _ _ w5c (by norm_num [w5clive])]
  norm_num [w5ch0, w5ch2, w5ch3, w5ch4, G]

/-- B5 after its update: the final world of the tick. -/
noncomputable def w5d : World :=
  { live := [0, 2, 3, 4]
  , heap := hupd w5c.heap 4
      ⟨(24552166889777367343597663087325542135908072826196816909742594263604057812856285905440435184545459730556990815484433294498740528599403815084402189903254449229664479956738050759397027817 / 12276093694189849469629389916981968458784286973055972620978244102627235221144505529713037819005416024453886324001505443657009028807410768222656289686347065407030449056662483240000000), 0, 2, 1, (-20498602331595661116746638394781660501119915128332213893941650412629432725153985640453465372318350781832518577592815277529015417721360910389469439681584396418156586915720602972183 / 12276093694189849469629389916981968458784286973055972620978244102627235221144505529713037819005416024453886324001505443657009028807410768222656289686347065407030449056662483240000000), 0, false, [((24552166889777367343597663087325542135908072826196816909742594263604057812856285905440435184545459730556990815484433294498740528599403815084402189903254449229664479956738050759397027817 / 12276093694189849469629389916981968458784286973055972620978244102627235221144505529713037819005416024453886324001505443657009028807410768222656289686347065407030449056662483240000000), 0)]⟩ }

theorem hupdate4 : update 4 false w5c = w5d := by
  norm_num [update, w5ch4, w5clive, hscan4, w5d]

theorem hupdate0 : update 0 false w5 = w5 := by
  norm_num [update, w5h0]

/-- The whole B1..B5 tick, fully evaluated. -/
theorem htick5 : tick false w5 = w5d := by
  simp only [tick, w5live, List.foldl]
  rw [hupdate0, hupdate1, hupdate2, hupdate3, hupdate4]

/-! ## The claims -/


/-- C1 (code bug exhibit): merging the body of mass 3 and velocity `(2,0)`
with the body of mass 1 and velocity `(0,4)` yields velocity `(8/5, 4/5)`,
not the momentum-conserving `(3/2, 1)` the spec demands: `merge` increments
the winner mass before using it as the weight, so the computed components
are `(v_w·(m_w+m_l) + v_l·m_l) / (m_w + 2·m_l)`. -/
theorem merge_velocity_uses_updated_mass :
    ((merge 0 1 wM).heap 0).mass = 4 ∧
    ((merge 0 1 wM).heap 0).vx = 8 / 5 ∧
    ((merge 0 1 wM).heap 0).vy = 4 / 5 ∧
    ¬ ((merge 0 1 wM).heap 0).vx = 3 / 2 ∧
    ¬ ((merge 0 1 wM).heap 0).vy = 1 := by
  refine ⟨?_, ?_, ?_, ?_, ?_⟩ <;> norm_num [merge, wM, Body.init, hupd]

/-- C2 (code bug exhibit): one tick on the two overlapping resting bodies of
`w0` (masses 2 and 1) ends with total live mass 4, not 3: the loser, removed
mid-tick, is still updated from the `bodies[:]` snapshot and merges into the
winner a second time. -/
theorem tick_total_mass_not_conserved :
    totalMass w0 = 3 ∧ totalMass (tick false w0) = 4 := by
  have h9 : Real.sqrt (9 : ℝ) = 3 := sqrt_eval (by norm_num) (by norm_num)
  have h50 : (0 : ℝ) ≤ Real.sqrt 50 := Real.sqrt_nonneg _
  have h50b : (3 : ℝ) < 5 + Real.sqrt 50 := by linarith
  have h50c : Real.sqrt ((Real.sqrt 50) ^ 2 + 5 ^ 2) = Real.sqrt 75 := by
    rw [Real.sq_sqrt (by norm_num : (50 : ℝ) ≥ 0)]; norm_num
  constructor <;>
    norm_num [totalMass, tick, update, scanAux, merge, w0, Body.init, hupd,
      h9, h50b, h50c]

/-- C3: a static body survives any number of ticks with its `is_static` flag
and mass unchanged (in particular it never loses mass and never becomes
non-static) and is never removed from the live collection — it is never the
absorbed side of any merge reached during a tick. -/
theorem static_immunity (w : World) (j : ℕ) (p : Bool) (n : ℕ)
    (hj : (w.heap j).is_static = true) :
    ((tickN p n w).heap j).is_static = true ∧
      ((tickN p n w).heap j).mass = (w.heap j).mass ∧
      (j ∈ w.live → j ∈ (tickN p n w).live) := by
  have h := tickN_static_frozen j p n w hj
  exact ⟨by rw [h.1]; exact hj, by rw [h.1], h.2⟩

/-- C3 witness: the static sun of `wS` (mass 10000, overlapped by a planet
of mass 5) after one running tick. -/
theorem static_immunity_witness :
    (wS.heap 0).is_static = true ∧
      (((tickN false 1 wS).heap 0).is_static = true ∧
        ((tickN false 1 wS).heap 0).mass = (wS.heap 0).mass ∧
        (0 ∈ wS.live → 0 ∈ (tickN false 1 wS).live)) :=
  ⟨by norm_num [wS, Body.init],
   static_immunity wS 0 false 1 (by norm_num [wS, Body.init])⟩

/-- C5 (counterexample): the planet of `wS` overlaps the strictly heavier
static sun, yet after the tick both bodies are still live and the sun is
unchanged — the collision is skipped, not resolved, because `merge` returns
as soon as `other.is_static` holds, before comparing masses. -/
theorem static_winner_merge_skipped :
    (tick false wS).live = [0, 1] ∧
      ((tick false wS).heap 0).mass = 10000 ∧
      ((tick false wS).heap 0).radius = 20 := by
  have h100 : Real.sqrt (100 : ℝ) = 10 := sqrt_eval (by norm_num) (by norm_num)
  refine ⟨?_, ?_, ?_⟩ <;>
    norm_num [tick, update, scanAux, merge, wS, Body.init, hupd, h100]

/-- C5 (amended): whenever `other` is static, `merge` is a no-op — the
static side never absorbs anything, whatever the masses. -/
theorem merge_static_other_noop (w : World) (a b : ℕ)
    (h : (w.heap b).is_static = true) : merge a b w = w := by
  simp [merge, h]

/-- C5 witness: the overlapping pair of `wS` (static sun of mass 10000,
planet of mass 5): the merge call is a no-op. -/
theorem merge_static_other_noop_witness :
    (wS.heap 0).is_static = true ∧ merge 1 0 wS = wS :=
  ⟨by norm_num [wS, Body.init],
   merge_static_other_noop wS 1 0 (by norm_num [wS, Body.init])⟩

/-- C6: in a resolved merge (non-static `other`) the winner by mass
comparison ends with radius `√(r_a² + r_b²)`, which is at least either
input radius. -/
theorem merge_radius_law (w : World) (a b : ℕ)
    (h : (w.heap b).is_static = false) :
    ((merge a b w).heap
        (if (w.heap a).mass < (w.heap b).mass then b else a)).radius =
      Real.sqrt ((w.heap a).radius ^ 2 + (w.heap b).radius ^ 2) ∧
    (w.heap a).radius ≤ ((merge a b w).heap
        (if (w.heap a).mass < (w.heap b).mass then b else a)).radius ∧
    (w.heap b).radius ≤ ((merge a b w).heap
        (if (w.heap a).mass < (w.heap b).mass then b else a)).radius := by
  have key : ((merge a b w).heap
      (if (w.heap a).mass < (w.heap b).mass then b else a)).radius =
      Real.sqrt ((w.heap a).radius ^ 2 + (w.heap b).radius ^ 2) := by
    by_cases hm : (w.heap a).mass < (w.heap b).mass
    · simp only [merge, h, Bool.false_eq_true, if_false, if_pos hm, hupd,
        eq_self_iff_true, if_true]
      rw [add_comm ((w.heap b).radius ^ 2)]
    · simp only [merge, h, Bool.false_eq_true, if_false, if_neg hm, hupd,
        eq_self_iff_true, if_true]
  refine ⟨key, ?_, ?_⟩
  · rw [key]
    exact Real.le_sqrt_of_sq_le (by nlinarith [sq_nonneg ((w.heap b).radius)])
  · rw [key]
    exact Real.le_sqrt_of_sq_le (by nlinarith [sq_nonneg ((w.heap a).radius)])

/-- C6 witness: merging the radius-3 and radius-4 bodies of `wR` gives the
winner radius `√(3² + 4²) = 5 ≥ 4 ≥ 3`. -/
theorem merge_radius_law_witness :
    (wR.heap 1).is_static = false ∧
      ((merge 0 1 wR).heap
          (if (wR.heap 0).mass < (wR.heap 1).mass then 1 else 0)).radius =
        Real.sqrt ((wR.heap 0).radius ^ 2 + (wR.heap 1).radius ^ 2) :=
  ⟨by norm_num [wR, Body.init],
   (merge_radius_law wR 0 1 (by norm_num [wR, Body.init])).1⟩



theorem wClive : wC.live = [1, 2, 0] := rfl

theorem wCh0 : wC.heap 0 = ⟨0, 0, 5, 1, 0, 0, false, []⟩ := by
  norm_num [wC, Body.init]

theorem wCh1 : wC.heap 1 = ⟨3, 0, 5, 2, 0, 0, false, []⟩ := by
  norm_num [wC, Body.init]

theorem wCh2 : wC.heap 2 = ⟨1000, 0, 1, 1, 0, 0, false, []⟩ := by
  norm_num [wC, Body.init]

/-- Body 0 absorbed into body 1 (masses 1 < 2): body 1 gets mass 3 and
radius `√50`, body 0 is erased. -/
noncomputable def wCm : World :=
  { live := [1, 2]
  , heap := hupd wC.heap 1 ⟨3, 0, Real.sqrt 50, 3, 0, 0, false, []⟩ }

theorem hmergeC : merge 0 1 wC = wCm := by
  norm_num [merge, wCh0, wCh1, wCm, wClive]

theorem wCmlive : wCm.live = [1, 2] := rfl

theorem wCmh0 : wCm.heap 0 = ⟨0, 0, 5, 1, 0, 0, false, []⟩ := by
  norm_num [wCm, hupd, wCh0]

theorem wCmh2 : wCm.heap 2 = ⟨1000, 0, 1, 1, 0, 0, false, []⟩ := by
  norm_num [wCm, hupd, wCh2]

/-- The mid-scan removal of the subject: body 0 collides with body 1 at the
first index and is erased there, yet the loop continues and accumulates the
gravity of body 2 for the now-dead subject. -/
theorem hscanC : scanAux 0 3 0 0 0 wC = (66743 / 100000000000, 0, wCm) := by
  have hs9 : Real.sqrt ((9 : ℝ)) = 3 := sqrt_eval (by norm_num) (by norm_num)
  have hs1000 : Real.sqrt ((1000000 : ℝ)) = 1000 := sqrt_eval (by norm_num) (by norm_num)
  rw [scanAux_step_collide 0 1 2 0 0 0 wC 3 (by norm_num [wClive]) (by norm_num [wClive])
      (by norm_num) (by norm_num [wCh0, wCh1, hs9]) (by norm_num) (by norm_num [wCh0, wCh1])]
  rw [hmergeC]
  rw [scanAux_step_force 0 2 1 1 _ _ wCm 1000 (by norm_num [wCmlive]) (by norm_num [wCmlive])
      (by norm_num) (by norm_num [wCmh0, wCmh2, hs1000]) (by norm_num)
      (by norm_num [wCmh0, wCmh2])]
  rw [scanAux_stop 0 1 (1 + 1) _ _ wCm (by norm_num [wCmlive])]
  norm_num [wCmh0, wCmh2, G]

/-- Body 0 after its own update: dead, displaced and with a fresh trail
entry. -/
noncomputable def wCu : World :=
  { live := [1, 2]
  , heap := hupd wCm.heap 0
      ⟨66743 / 100000000000, 0, 5, 1, 66743 / 100000000000, 0, false,
       [(66743 / 100000000000, 0)]⟩ }

theorem hupdateC : update 0 false wC = wCu := by
  norm_num [update, wCh0, wClive, hscanC, wCmh0, wCu, wCmlive]

/-- C7 (counterexample): in `wC` the subject body 0 is removed from the live
collection in the middle of its own force scan, yet the scan keeps
accumulating (its velocity ends non-zero, fed by the body scanned after the
removal) and the integration and trail append still run. -/
theorem removed_subject_still_integrated :
    0 ∉ (update 0 false wC).live ∧
      ¬ ((update 0 false wC).heap 0).vx = 0 ∧
      ¬ ((update 0 false wC).heap 0).trail = [] := by
  rw [hupdateC]
  refine ⟨by norm_num [wCu], ?_, ?_⟩ <;> norm_num [wCu, hupd]

/-- C7 (amended): an overlapping pair at positive distance contributes no
force; merge resolution is invoked instead, and the scan then continues
with the next index unconditionally — whether or not the merge removed the
subject itself. -/
theorem collision_beats_force (a b m i : ℕ) (fx fy : ℝ) (w : World) (d : ℝ)
    (h : i < w.live.length) (he : w.live[i]? = some b) (hb : ¬ b = a)
    (hd : Real.sqrt (((w.heap b).x - (w.heap a).x) ^ 2 +
            ((w.heap b).y - (w.heap a).y) ^ 2) = d)
    (hd0 : ¬ d = 0) (hc : d < (w.heap a).radius + (w.heap b).radius) :
    scanAux a (m + 1) i fx fy w = scanAux a m (i + 1) fx fy (merge a b w) :=
  scanAux_step_collide a b m i fx fy w d h he hb hd hd0 hc

/-- C7 witness: the first scan step of body 0 in `wC` (distance 3, radius
sum 10) resolves the collision and moves on. -/
theorem collision_beats_force_witness :
    scanAux 0 (2 + 1) 0 0 0 wC = scanAux 0 2 (0 + 1) 0 0 (merge 0 1 wC) := by
  have hs9 : Real.sqrt ((9 : ℝ)) = 3 := sqrt_eval (by norm_num) (by norm_num)
  exact collision_beats_force 0 1 2 0 0 0 wC 3 (by norm_num [wClive])
    (by norm_num [wClive]) (by norm_num) (by norm_num [wCh0, wCh1, hs9])
    (by norm_num) (by norm_num [wCh0, wCh1])



/-- C4 (counterexample): in the B1..B5 tick of `w5` the loser B2 (body 1)
is removed mid-tick, yet a trail entry is appended for it during that same
tick — its processing does not stop at removal (the integration and trail
append of its own update run after the erase). -/
theorem removed_loser_still_processed :
    1 ∉ (tick false w5).live ∧ ((tick false w5).heap 1).trail.length = 1 := by
  rw [htick5]
  constructor
  · norm_num [w5d]
  · norm_num [w5d, w5c, w5b, hupd, w5a]

/-- C4 (amended): in the B1..B5 scenario the snapshot iteration neither
skips nor duplicates any still-live body: after the tick exactly the four
bodies B1, B3, B4, B5 remain, and the winner B3 and the bystanders B4 and
B5 each carry exactly one new trail entry — each was integrated exactly
once. -/
theorem tick_snapshot_safe_removal :
    (tick false w5).live = [0, 2, 3, 4] ∧
      ((tick false w5).heap 2).trail.length = 1 ∧
      ((tick false w5).heap 3).trail.length = 1 ∧
      ((tick false w5).heap 4).trail.length = 1 := by
  rw [htick5]
  refine ⟨rfl, ?_, ?_, ?_⟩
  · norm_num [w5d, w5c, hupd, w5b]
  · norm_num [w5d, w5c, hupd]
  · norm_num [w5d, hupd]

/-- C8: a pair with exactly coincident centers is a degenerate no-op for
the scan — no force is contributed, nothing is mutated, and the loop just
moves on (the model is total, so no division fault can arise: the pair is
skipped before the force quotient is formed); moreover the collision-arm
guard (distance non-zero — hence positive, a square root — and below the
radius sum) is false for such a pair, so no collision is detected. -/
theorem zero_distance_degenerate (a b m i : ℕ) (fx fy : ℝ) (w : World)
    (h : i < w.live.length) (he : w.live[i]? = some b) (hb : ¬ b = a)
    (hx : (w.heap b).x = (w.heap a).x) (hy : (w.heap b).y = (w.heap a).y) :
    scanAux a (m + 1) i fx fy w = scanAux a m (i + 1) fx fy w ∧
      ¬ (Real.sqrt (((w.heap b).x - (w.heap a).x) ^ 2 +
            ((w.heap b).y - (w.heap a).y) ^ 2) ≠ 0 ∧
          Real.sqrt (((w.heap b).x - (w.heap a).x) ^ 2 +
            ((w.heap b).y - (w.heap a).y) ^ 2) <
            (w.heap a).radius + (w.heap b).radius) := by
  refine ⟨scanAux_step_coincident a b m i fx fy w h he hb hx hy, ?_⟩
  rw [hx, hy]
  simp

/-- C8 witness: the coincident pair of `wZ` (bodies 0 and 1 both at
`(7,7)`), scanned by body 0 at index 1. -/
theorem zero_distance_degenerate_witness :
    scanAux 0 (0 + 1) 1 0 0 wZ = scanAux 0 0 (1 + 1) 0 0 wZ :=
  (zero_distance_degenerate 0 1 0 1 0 0 wZ (by norm_num [wZ])
    (by norm_num [wZ]) (by norm_num) (by norm_num [wZ, Body.init])
    (by norm_num [wZ, Body.init])).1

/-- C9 (counterexample): the constructor accepts a body of mass `-1` and
radius `-2` without any error — construction-time validation does not
exist, so the `mass > 0` and `radius > 0` invariants are not enforced. -/
theorem body_init_accepts_nonpositive :
    ¬ (0 < (Body.init 0 0 (-2) (-1) 0 0 false).mass) ∧
      ¬ (0 < (Body.init 0 0 (-2) (-1) 0 0 false).radius) := by
  norm_num [Body.init]

/-- C9 (amended): `Body.__init__` performs no validation at all: every call
succeeds and stores the given mass and radius verbatim, non-positive values
included. -/
theorem body_init_no_validation (x y radius mass vx vy : ℝ) (s : Bool) :
    (Body.init x y radius mass vx vy s).mass = mass ∧
      (Body.init x y radius mass vx vy s).radius = radius ∧
      (Body.init x y radius mass vx vy s).is_static = s ∧
      (Body.init x y radius mass vx vy s).trail = [] :=
  ⟨rfl, rfl, rfl, rfl⟩



/-- C10 (amended): a planet spawned at the RANDOM position (no mouse) gets
the full circular-orbit seeding — velocity perpendicular to its radius
vector, squared speed `G·M/dist` and distance `dist` from the origin.  A
MOUSE-spawned planet still gets squared speed `G·M/d` for its own distance
`d` from the sun, but its velocity direction comes from the unrelated fresh
random angle (see the counterexample for non-perpendicularity). -/
theorem add_planet_seeding :
    (∀ angle dist zoom ox oy M : ℝ, 0 < dist → 0 ≤ M →
      (add_planet angle dist none zoom ox oy M).vx *
          (add_planet angle dist none zoom ox oy M).x +
        (add_planet angle dist none zoom ox oy M).vy *
          (add_planet angle dist none zoom ox oy M).y = 0 ∧
      (add_planet angle dist none zoom ox oy M).vx ^ 2 +
        (add_planet angle dist none zoom ox oy M).vy ^ 2 = G * M / dist ∧
      Real.sqrt ((add_planet angle dist none zoom ox oy M).x ^ 2 +
        (add_planet angle dist none zoom ox oy M).y ^ 2) = dist) ∧
    (∀ angle dist zoom ox oy M mx my : ℝ, 0 ≤ M →
      0 < Real.sqrt ((add_planet angle dist (some (mx, my)) zoom ox oy M).x ^ 2 +
            (add_planet angle dist (some (mx, my)) zoom ox oy M).y ^ 2) →
      (add_planet angle dist (some (mx, my)) zoom ox oy M).vx ^ 2 +
        (add_planet angle dist (some (mx, my)) zoom ox oy M).vy ^ 2 =
        G * M / Real.sqrt ((add_planet angle dist (some (mx, my)) zoom ox oy M).x ^ 2 +
            (add_planet angle dist (some (mx, my)) zoom ox oy M).y ^ 2)) := by
  have hG : (0 : ℝ) ≤ G := by norm_num [G]
  constructor
  · intro angle dist zoom ox oy M hd hM
    have hD : Real.sqrt ((Real.cos angle * dist) ^ 2 + (Real.sin angle * dist) ^ 2)
        = dist := sqrt_eval hd.le (by nlinarith [Real.sin_sq_add_cos_sq angle])
    simp only [add_planet, Body.init]
    rw [hD]
    have hs2 : Real.sqrt (G * M / dist) ^ 2 = G * M / dist :=
      Real.sq_sqrt (div_nonneg (mul_nonneg hG hM) hd.le)
    refine ⟨by ring, ?_, rfl⟩
    calc (-Real.sin angle * Real.sqrt (G * M / dist)) ^ 2 +
          (Real.cos angle * Real.sqrt (G * M / dist)) ^ 2
        = (Real.sin angle ^ 2 + Real.cos angle ^ 2) *
            Real.sqrt (G * M / dist) ^ 2 := by ring
      _ = G * M / dist := by rw [Real.sin_sq_add_cos_sq, one_mul, hs2]
  · intro angle dist zoom ox oy M mx my hM hpos
    simp only [add_planet, Body.init] at hpos ⊢
    have hs2 : Real.sqrt (G * M /
        Real.sqrt (((mx - WIDTH / 2) / zoom - ox) ^ 2 +
          ((my - HEIGHT / 2) / zoom - oy) ^ 2)) ^ 2 =
        G * M / Real.sqrt (((mx - WIDTH / 2) / zoom - ox) ^ 2 +
          ((my - HEIGHT / 2) / zoom - oy) ^ 2) :=
      Real.sq_sqrt (div_nonneg (mul_nonneg hG hM) hpos.le)
    calc (-Real.sin angle * Real.sqrt (G * M /
            Real.sqrt (((mx - WIDTH / 2) / zoom - ox) ^ 2 +
              ((my - HEIGHT / 2) / zoom - oy) ^ 2))) ^ 2 +
          (Real.cos angle * Real.sqrt (G * M /
            Real.sqrt (((mx - WIDTH / 2) / zoom - ox) ^ 2 +
              ((my - HEIGHT / 2) / zoom - oy) ^ 2))) ^ 2
        = (Real.sin angle ^ 2 + Real.cos angle ^ 2) *
            Real.sqrt (G * M /
              Real.sqrt (((mx - WIDTH / 2) / zoom - ox) ^ 2 +
                ((my - HEIGHT / 2) / zoom - oy) ^ 2)) ^ 2 := by ring
      _ = G * M / Real.sqrt (((mx - WIDTH / 2) / zoom - ox) ^ 2 +
            ((my - HEIGHT / 2) / zoom - oy) ^ 2) := by
          rw [Real.sin_sq_add_cos_sq, one_mul, hs2]

/-- C10 (counterexample): the mouse spawn at screen point `(600, 401)` with
angle 0 (zoom 1, no pan, sun mass 10000) lands at world point `(0, 1)` but
receives velocity `(0, √(G·10000))`, parallel — not perpendicular — to its
radius vector: the dot product is non-zero. -/
theorem mouse_spawn_not_perpendicular :
    ¬ ((add_planet 0 37 (some (600, 401)) 1 0 0 10000).vx *
          (add_planet 0 37 (some (600, 401)) 1 0 0 10000).x +
        (add_planet 0 37 (some (600, 401)) 1 0 0 10000).vy *
          (add_planet 0 37 (some (600, 401)) 1 0 0 10000).y = 0) := by
  simp only [add_planet, Body.init, WIDTH, HEIGHT]
  norm_num [Real.sqrt_ne_zero', G]


end

end Gravity
